import Mathlib

/-!
Verification development for the retrieval-augmented QnA pipeline
(`src/langchaindemo.py`) against its natural-language specification.

Part 1 embeds the Streamlit glue script itself: its inputs, the guard on
line 22, the side effects it performs (environment-variable assignment,
document file write, index build into a fixed persist directory, LLM
construction) and the outcome of one script run.  External capabilities
(document loading, the RetrievalQA chain) are oracles supplied as inputs.

Part 2 models the retrieval core the specification describes (Vector
Index, Retriever, Answer Synthesizer, persistence).  That core is not in
the repository: the script delegates it to the Chroma / LangChain
libraries, so those components are modelled from the specification text.
-/

namespace LangchainDemo

/-! ### Part 1: the script (`src/langchaindemo.py`) -/

/-- Inputs of one Streamlit script run: the uploaded `.docx` bytes (none
when no file is uploaded), the API-key text-field value (empty string when
unset; Python truthiness of a string is non-emptiness), and the question
text-field value (empty string when no question was typed). -/
structure ScriptInput where
  uploadedFile : Option (List Nat)
  apiKey : String
  userQuestion : String
deriving DecidableEq, Repr

/-- External capabilities the script calls, supplied as oracles: the
document loader (`UnstructuredFileLoader(...).load()`, reported as a
document count on line 29) and the QA chain (`qa_chain.run`, line 58),
which either returns an answer string or raises (modelled as `Except`). -/
structure Services where
  loadDocs : List Nat → Nat
  qaRun : String → Except String String

/-- Outcome of one script run.  `info` is the `st.info` prompt of the
`else` branch (lines 61-62); `awaiting` means the pipeline ran but no
question was typed; `answered` is the `st.markdown` answer (line 59);
`crashed` models an exception from `qa_chain.run` escaping the script
body uncaught — the source has no handler around lines 56-59. -/
inductive RunOutcome where
  | info
  | awaiting (nDocs : Nat)
  | answered (nDocs : Nat) (answer : String)
  | crashed (nDocs : Nat) (err : String)
deriving DecidableEq, Repr

/-- Observable effects of one script run: the value written into
`os.environ` at lines 17-18 (if any), the file write of lines 24-25
(path and bytes), the Chroma persist directory of lines 35-37, the
retriever `k` of line 40, the `ChatOpenAI` model name and temperature of
line 43, and the run outcome. -/
structure ScriptEffects where
  envKeySet : Option String
  docFileWritten : Option (String × List Nat)
  persistDir : Option String
  retrieverK : Option Nat
  llmModel : Option String
  llmTemperature : Option Int
  outcome : RunOutcome
deriving DecidableEq, Repr

/-- Line 22 of the script: `if uploaded_file and api_key:` — Python
truthiness of the upload object and of the key string. -/
def pipelineGuard (inp : ScriptInput) : Bool :=
  inp.uploadedFile.isSome && !(inp.apiKey == "")

/-- Direct transcription of the script body: the environment variable is
set whenever the key is non-empty (lines 17-18, before the guard); under
the guard the document is written to the fixed path `uploaded_doc.docx`,
the index is built into the fixed persist directory `./chroma_db`, the
retriever uses `k = 3`, the LLM is `gpt-4` at temperature 0, and a typed
question is answered by `qa_chain.run` with no exception handling. -/
def runScript (svc : Services) (inp : ScriptInput) : ScriptEffects :=
  let envKeySet := if inp.apiKey == "" then none else some inp.apiKey
  if pipelineGuard inp then
    let fileBytes := inp.uploadedFile.getD []
    let nDocs := svc.loadDocs fileBytes
    let outcome :=
      if inp.userQuestion == "" then RunOutcome.awaiting nDocs
      else
        match svc.qaRun inp.userQuestion with
        | Except.ok ans => RunOutcome.answered nDocs ans
        | Except.error e => RunOutcome.crashed nDocs e
    { envKeySet := envKeySet,
      docFileWritten := some ("uploaded_doc.docx", fileBytes),
      persistDir := some "./chroma_db",
      retrieverK := some 3,
      llmModel := some "gpt-4",
      llmTemperature := some 0,
      outcome := outcome }
  else
    { envKeySet := envKeySet,
      docFileWritten := none,
      persistDir := none,
      retrieverK := none,
      llmModel := none,
      llmTemperature := none,
      outcome := RunOutcome.info }

/-- A concrete set of oracle services used for closed instances: the
loader reports one document, the chain answers every question. -/
def okServices : Services :=
  { loadDocs := fun _ => 1,
    qaRun := fun _ => Except.ok "the answer" }

/-- Oracle services whose QA chain raises on every question, modelling a
generation-service failure during `qa_chain.run`. -/
def failingServices : Services :=
  { loadDocs := fun _ => 1,
    qaRun := fun _ => Except.error "GenerationServiceError" }

/-! ### Part 2: the retrieval core, modelled from the specification -/

/-- Modelled from the spec: a Segment (section 3 data model) — the unit
of retrieval produced by the Loader.  The in-repo script delegates
segment creation to the LangChain loader, which is not in `src/`. -/
structure Segment where
  id : Nat
  text : String
deriving DecidableEq, Repr

/-- Modelled from the spec: an Embedding is a fixed-length ordered
sequence of numbers; represented over the rationals so the development
stays executable. -/
abbrev Embedding := List ℚ

/-- Modelled from the spec: an Index Entry, a (segment, vector) pair
owned by the Vector Index. -/
structure IndexEntry where
  segment : Segment
  vector : Embedding
deriving DecidableEq, Repr

/-- Modelled from the spec: the Vector Index holds its entries in
original insertion order (needed for the deterministic tie-break of
section 4.3); it is read-only after build. -/
structure Index where
  entries : List IndexEntry
deriving DecidableEq, Repr

/-- Modelled from the spec: build-time failure taxonomy of section 4.3. -/
inductive BuildError where
  | dimensionMismatchError
deriving DecidableEq, Repr

/-- Modelled from the spec: search-time failure taxonomy of section 4.3. -/
inductive SearchError where
  | emptyIndexError
  | invalidKError
deriving DecidableEq, Repr

/-- All embeddings of the build input have the same length (the
dimensionality invariant of section 3). -/
def dimsConsistent : List (Segment × Embedding) → Bool
  | [] => true
  | (_, v) :: rest => rest.all (fun p => p.2.length = v.length)

/-- Modelled from the spec: `build` (section 4.3) — fails with
`DimensionMismatchError` on inconsistent vector lengths, otherwise stores
the entries in their given order. -/
def build (s : List (Segment × Embedding)) : Except BuildError Index :=
  if dimsConsistent s then Except.ok ⟨s.map (fun p => ⟨p.1, p.2⟩)⟩
  else Except.error BuildError.dimensionMismatchError

/-- Dot product of two rational vectors. -/
def dot (a b : List ℚ) : ℚ := (List.zipWith (fun x y => x * y) a b).sum

/-- `signedSquare x = sign(x) * x^2`, a strictly increasing map. -/
def signedSquare (x : ℚ) : ℚ := if x < 0 then -(x * x) else x * x

/-- Modelled from the spec: the similarity of section 4.3 is cosine
similarity `dot q v / (norm q * norm v)`.  To keep scores rational and
the development executable, the score used here is the strictly
increasing image `sign(cos) * cos^2 = signedSquare (dot q v) / (dot q q * dot v v)`
of the cosine, which induces the same ordering of entries. -/
def simScore (q v : Embedding) : ℚ :=
  signedSquare (dot q v) / (dot q q * dot v v)

/-- Entries tagged with their original insertion position and their
similarity score for a given query. -/
def rankedEntries (idx : Index) (q : Embedding) : List (Nat × IndexEntry × ℚ) :=
  (List.range idx.entries.length).zip idx.entries
    |>.map (fun p => (p.1, p.2, simScore q p.2.vector))

/-- Retrieval ranking order of section 4.3: higher score first; on equal
scores, smaller original insertion position first. -/
def rankLE (a b : Nat × IndexEntry × ℚ) : Prop :=
  b.2.2 < a.2.2 ∨ (a.2.2 = b.2.2 ∧ a.1 ≤ b.1)

instance : DecidableRel rankLE := fun a b => by
  unfold rankLE; infer_instance

instance : IsTotal (Nat × IndexEntry × ℚ) rankLE := by
  constructor
  intro a b
  rcases lt_trichotomy a.2.2 b.2.2 with h | h | h
  · exact Or.inr (Or.inl h)
  · rcases Nat.le_total a.1 b.1 with h1 | h1
    · exact Or.inl (Or.inr ⟨h, h1⟩)
    · exact Or.inr (Or.inr ⟨h.symm, h1⟩)
  · exact Or.inl (Or.inl h)

instance : IsTrans (Nat × IndexEntry × ℚ) rankLE := by
  constructor
  intro a b c hab hbc
  rcases hab with hab | ⟨hab, hab1⟩
  · rcases hbc with hbc | ⟨hbc, _⟩
    · exact Or.inl (hbc.trans hab)
    · exact Or.inl (hbc ▸ hab)
  · rcases hbc with hbc | ⟨hbc, hbc1⟩
    · exact Or.inl (hab ▸ hbc)
    · exact Or.inr ⟨hab.trans hbc, hab1.trans hbc1⟩

/-- Modelled from the spec: a RetrievalResult (section 3) is an ordered
sequence of (segment, score) pairs. -/
abbrev RetrievalResult := List (Segment × ℚ)

/-- Project a ranked entry to its (segment, score) result pair. -/
def resultEntry (x : Nat × IndexEntry × ℚ) : Segment × ℚ := (x.2.1.segment, x.2.2)

/-- Modelled from the spec: top-k selection — rank all entries (linear
scan) and keep the first k in ranking order. -/
def topK (idx : Index) (q : Embedding) (k : Nat) : RetrievalResult :=
  ((List.insertionSort rankLE (rankedEntries idx q)).take k).map resultEntry

/-- Modelled from the spec: `search(query_vector, k)` of section 4.3 —
`EmptyIndexError` on an index with zero entries, `InvalidKError` when
`k ≤ 0`, otherwise the top-k results. -/
def search (idx : Index) (q : Embedding) (k : Int) : Except SearchError RetrievalResult :=
  if idx.entries = [] then Except.error SearchError.emptyIndexError
  else if k ≤ 0 then Except.error SearchError.invalidKError
  else Except.ok (topK idx q k.toNat)

/-- Modelled from the spec: the answer status field of section 4.5 —
`noContextError` is the soft `NoContextError` signal returned alongside a
best-effort answer when no grounding context was found. -/
inductive AnswerStatus where
  | grounded
  | noContextError
deriving DecidableEq, Repr

/-- Modelled from the spec: the synthesizer output — an answer string
together with the status flag of section 4.5. -/
structure SynthesisOutput where
  answer : String
  status : AnswerStatus
deriving DecidableEq, Repr

/-- Maximum total characters of context in an assembled prompt. -/
def contextBudget : Nat := 4000

/-- Keep texts in order while their total length stays within the
budget, dropping the lowest-ranked (later) ones first. -/
def takeBudget : Nat → List String → List String
  | _, [] => []
  | b, t :: ts => if t.length ≤ b then t :: takeBudget (b - t.length) ts else []

/-- The fixed instructional template of section 4.5. -/
def instructionTemplate : String :=
  "Answer only using the provided context; say you do not know if the context is insufficient."

/-- Modelled from the spec: prompt assembly of section 4.5 — retrieved
segment texts in result order up to the budget, then the template, then
the question. -/
def assemblePrompt (question : String) (ctx : RetrievalResult) : String :=
  String.intercalate "\n" (takeBudget contextBudget (ctx.map (fun p => p.1.text)))
    ++ "\n" ++ instructionTemplate ++ "\n" ++ question

/-- Modelled from the spec: `synthesize(question, RetrievalResult)` of
section 4.5 — always delegates the assembled prompt to the external
generation capability, and flags an empty RetrievalResult through the
returned status field instead of failing or answering silently. -/
def synthesize (generate : String → String) (question : String) (ctx : RetrievalResult) :
    SynthesisOutput :=
  { answer := generate (assemblePrompt question ctx),
    status := if ctx = [] then AnswerStatus.noContextError else AnswerStatus.grounded }

/-- Modelled from the spec: the persisted index layout of section 6 —
it records the embedding dimensionality and a schema/version tag beside
the entries. -/
structure PersistedIndex where
  dim : Nat
  versionTag : String
  entries : List (Segment × Embedding)
deriving DecidableEq, Repr

/-- Modelled from the spec: load-time failure taxonomy of section 6. -/
inductive LoadError where
  | indexVersionMismatchError
deriving DecidableEq, Repr

/-- Dimensionality of an index's embeddings (all equal after `build`). -/
def indexDim (idx : Index) : Nat :=
  (idx.entries.head?.map (fun e => e.vector.length)).getD 0

/-- Modelled from the spec: persisting an index records its embedding
dimensionality and the embedder's schema/version tag. -/
def persistIndex (embedderVersion : String) (idx : Index) : PersistedIndex :=
  { dim := indexDim idx,
    versionTag := embedderVersion,
    entries := idx.entries.map (fun e => (e.segment, e.vector)) }

/-- Modelled from the spec: loading a persisted index checks the
recorded version tag against the current embedder version and fails with
`IndexVersionMismatchError` on a mismatch. -/
def loadIndex (currentVersion : String) (p : PersistedIndex) : Except LoadError Index :=
  if p.versionTag = currentVersion then Except.ok ⟨p.entries.map (fun q => ⟨q.1, q.2⟩)⟩
  else Except.error LoadError.indexVersionMismatchError

/-! ### Claim theorems -/

/-- C1: for every query against a freshly built (non-empty) index and
every positive k, `search` succeeds with at most k results whose scores
are non-increasing, and the results are the first k of a permutation of
all scored entries arranged in the ranking order `rankLE`, which breaks
score ties by original insertion position. -/
theorem search_returns_sorted_topk (entries : List IndexEntry) (q : Embedding) (k : Int)
    (hne : entries ≠ []) (hk : 0 < k) :
    ∃ r : RetrievalResult,
      search ⟨entries⟩ q k = Except.ok r ∧
      r.length ≤ k.toNat ∧
      (r.map Prod.snd).Pairwise (fun a b => b ≤ a) ∧
      ∃ l : List (Nat × IndexEntry × ℚ),
        l.Perm (rankedEntries ⟨entries⟩ q) ∧ l.Pairwise rankLE ∧
        r = (l.take k.toNat).map resultEntry := by
  refine ⟨topK ⟨entries⟩ q k.toNat, ?_, ?_, ?_, ?_⟩
  · simp [search, hne, not_le.mpr hk]
  · simp only [topK, List.length_map, List.length_take]
    exact min_le_left _ _
  · have hs : (List.insertionSort rankLE (rankedEntries ⟨entries⟩ q)).Pairwise rankLE :=
      List.sorted_insertionSort rankLE (rankedEntries ⟨entries⟩ q)
    have ht : ((List.insertionSort rankLE (rankedEntries ⟨entries⟩ q)).take k.toNat).Pairwise
        rankLE := List.Pairwise.sublist (List.take_sublist _ _) hs
    simp only [topK, List.map_map]
    rw [List.pairwise_map]
    refine ht.imp ?_
    intro a b hab
    rcases hab with h | ⟨h, _⟩
    · exact h.le
    · exact le_of_eq h.symm
  · exact ⟨List.insertionSort rankLE (rankedEntries ⟨entries⟩ q),
      List.perm_insertionSort _ _, List.sorted_insertionSort _ _, rfl⟩

/-- Witness for C1 at a concrete two-entry index and query. -/
theorem search_returns_sorted_topk_witness :
    ∃ r : RetrievalResult,
      search ⟨[⟨⟨0, "alpha"⟩, [1, 0]⟩, ⟨⟨1, "beta"⟩, [0, 1]⟩]⟩ [1, 0] 3 = Except.ok r ∧
      r.length ≤ (3 : Int).toNat ∧
      (r.map Prod.snd).Pairwise (fun a b => b ≤ a) ∧
      ∃ l : List (Nat × IndexEntry × ℚ),
        l.Perm (rankedEntries ⟨[⟨⟨0, "alpha"⟩, [1, 0]⟩, ⟨⟨1, "beta"⟩, [0, 1]⟩]⟩ [1, 0]) ∧
        l.Pairwise rankLE ∧ r = (l.take (3 : Int).toNat).map resultEntry :=
  search_returns_sorted_topk [⟨⟨0, "alpha"⟩, [1, 0]⟩, ⟨⟨1, "beta"⟩, [0, 1]⟩] [1, 0] 3
    (by decide) (by decide)

/-- C2: `search` fails with `EmptyIndexError` on an index with zero
entries, fails with `InvalidKError` on a non-empty index when k ≤ 0, and
succeeds in all other cases — including k larger than the number of
entries. -/
theorem search_error_cases (idx : Index) (q : Embedding) (k : Int) :
    (idx.entries = [] → search idx q k = Except.error SearchError.emptyIndexError) ∧
    (idx.entries ≠ [] → k ≤ 0 → search idx q k = Except.error SearchError.invalidKError) ∧
    (idx.entries ≠ [] → 0 < k → search idx q k = Except.ok (topK idx q k.toNat)) := by
  refine ⟨fun h => ?_, fun h hk => ?_, fun h hk => ?_⟩
  · simp [search, h]
  · simp [search, h, hk]
  · simp [search, h, not_le.mpr hk]

/-- Witness for C2: the empty-index error, the invalid-k error, and a
successful call with k = 5 larger than the single entry. -/
theorem search_error_cases_witness :
    search ⟨[]⟩ [1] 3 = Except.error SearchError.emptyIndexError ∧
    search ⟨[⟨⟨0, "alpha"⟩, [1]⟩]⟩ [1] 0 = Except.error SearchError.invalidKError ∧
    search ⟨[⟨⟨0, "alpha"⟩, [1]⟩]⟩ [1] 5 =
      Except.ok (topK ⟨[⟨⟨0, "alpha"⟩, [1]⟩]⟩ [1] (5 : Int).toNat) :=
  ⟨(search_error_cases ⟨[]⟩ [1] 3).1 rfl,
    (search_error_cases ⟨[⟨⟨0, "alpha"⟩, [1]⟩]⟩ [1] 0).2.1 (by decide) (by decide),
    (search_error_cases ⟨[⟨⟨0, "alpha"⟩, [1]⟩]⟩ [1] 5).2.2 (by decide) (by decide)⟩

/-- C5: building the index twice from the same (segment, embedding)
sequence and searching with the same query vector and the same k yields
the identical RetrievalResult both times. -/
theorem build_search_deterministic (s : List (Segment × Embedding)) (q : Embedding)
    (k : Int) (i1 i2 : Index) (h1 : build s = Except.ok i1) (h2 : build s = Except.ok i2) :
    search i1 q k = search i2 q k := by
  rw [h1] at h2
  cases h2
  rfl

/-- Witness for C5 at a concrete one-segment build. -/
theorem build_search_deterministic_witness :
    build [(⟨0, "alpha"⟩, [1])] = Except.ok ⟨[⟨⟨0, "alpha"⟩, [1]⟩]⟩ ∧
    search ⟨[⟨⟨0, "alpha"⟩, [1]⟩]⟩ [1] 1 = search ⟨[⟨⟨0, "alpha"⟩, [1]⟩]⟩ [1] 1 :=
  ⟨rfl,
    build_search_deterministic [(⟨0, "alpha"⟩, [1])] [1] 1
      ⟨[⟨⟨0, "alpha"⟩, [1]⟩]⟩ ⟨[⟨⟨0, "alpha"⟩, [1]⟩]⟩ rfl rfl⟩

/-- C6: on an empty RetrievalResult the synthesizer still produces a
best-effort answer (it still calls the generation capability on the
assembled prompt) and flags the absence of grounding context through the
returned status field; on a non-empty result the status is `grounded`,
so the flag is never silent. -/
theorem synthesize_empty_context_flagged (generate : String → String) (question : String)
    (ctx : RetrievalResult) :
    (ctx = [] →
      (synthesize generate question ctx).status = AnswerStatus.noContextError ∧
      (synthesize generate question ctx).answer = generate (assemblePrompt question ctx)) ∧
    (ctx ≠ [] → (synthesize generate question ctx).status = AnswerStatus.grounded) := by
  refine ⟨fun h => ⟨?_, rfl⟩, fun h => ?_⟩
  · simp [synthesize, h]
  · simp [synthesize, h]

/-- Witness for C6 with an identity generation stub. -/
theorem synthesize_empty_context_flagged_witness :
    ((synthesize id "q" []).status = AnswerStatus.noContextError ∧
      (synthesize id "q" []).answer = id (assemblePrompt "q" [])) ∧
    (synthesize id "q" [(⟨0, "alpha"⟩, 1)]).status = AnswerStatus.grounded :=
  ⟨(synthesize_empty_context_flagged id "q" []).1 rfl,
    (synthesize_empty_context_flagged id "q" [(⟨0, "alpha"⟩, 1)]).2 (by decide)⟩

/-- C7: the persisted layout records the embedding dimensionality and
the embedder version tag; loading under a different embedder version
fails with `IndexVersionMismatchError`, and loading under the same
version succeeds. -/
theorem persist_version_checked (v cur : String) (idx : Index) :
    (persistIndex v idx).dim = indexDim idx ∧
    (persistIndex v idx).versionTag = v ∧
    (v ≠ cur →
      loadIndex cur (persistIndex v idx) = Except.error LoadError.indexVersionMismatchError) ∧
    (v = cur → ∃ i, loadIndex cur (persistIndex v idx) = Except.ok i) := by
  refine ⟨rfl, rfl, fun h => ?_, fun h => ?_⟩
  · simp [loadIndex, persistIndex, h]
  · refine ⟨⟨(idx.entries.map (fun e => (e.segment, e.vector))).map (fun p => ⟨p.1, p.2⟩)⟩, ?_⟩
    simp [loadIndex, persistIndex, h]

/-- Witness for C7 at a concrete persisted index and a mismatched
version tag. -/
theorem persist_version_checked_witness :
    (persistIndex "embedder-v1" ⟨[⟨⟨0, "alpha"⟩, [1, 2]⟩]⟩).dim
        = indexDim ⟨[⟨⟨0, "alpha"⟩, [1, 2]⟩]⟩ ∧
    (persistIndex "embedder-v1" ⟨[⟨⟨0, "alpha"⟩, [1, 2]⟩]⟩).versionTag = "embedder-v1" ∧
    loadIndex "embedder-v2" (persistIndex "embedder-v1" ⟨[⟨⟨0, "alpha"⟩, [1, 2]⟩]⟩)
      = Except.error LoadError.indexVersionMismatchError :=
  ⟨(persist_version_checked "embedder-v1" "embedder-v2" ⟨[⟨⟨0, "alpha"⟩, [1, 2]⟩]⟩).1,
    (persist_version_checked "embedder-v1" "embedder-v2" ⟨[⟨⟨0, "alpha"⟩, [1, 2]⟩]⟩).2.1,
    (persist_version_checked "embedder-v1" "embedder-v2" ⟨[⟨⟨0, "alpha"⟩, [1, 2]⟩]⟩).2.2.1
      (by decide)⟩

/-- C3 (code evaluation at the failing input): when the QA chain raises
during `qa_chain.run`, the exception escapes the script body uncaught —
the run ends in `crashed`, not in an answered or failed-answer outcome,
because lines 56-59 of the script have no exception handling. -/
theorem qa_failure_escapes_script_run :
    (runScript failingServices ⟨some [0], "sk-key", "what is X"⟩).outcome
      = RunOutcome.crashed 1 "GenerationServiceError" := rfl

/-- C4: the run effects outside the credential channel — the file write,
the persist directory, the retriever and LLM configuration, and the run
outcome (every user-visible message, including error text) — do not
depend on the credential value, only on whether a credential is present;
the environment-variable slot that the external-service clients read is
the sole flow out of the credential input. -/
theorem credential_noninterference (svc : Services) (f : Option (List Nat))
    (qn k1 k2 : String) (h : k1 = "" ↔ k2 = "") :
    (runScript svc ⟨f, k1, qn⟩).docFileWritten = (runScript svc ⟨f, k2, qn⟩).docFileWritten ∧
    (runScript svc ⟨f, k1, qn⟩).persistDir = (runScript svc ⟨f, k2, qn⟩).persistDir ∧
    (runScript svc ⟨f, k1, qn⟩).retrieverK = (runScript svc ⟨f, k2, qn⟩).retrieverK ∧
    (runScript svc ⟨f, k1, qn⟩).llmModel = (runScript svc ⟨f, k2, qn⟩).llmModel ∧
    (runScript svc ⟨f, k1, qn⟩).llmTemperature = (runScript svc ⟨f, k2, qn⟩).llmTemperature ∧
    (runScript svc ⟨f, k1, qn⟩).outcome = (runScript svc ⟨f, k2, qn⟩).outcome := by
  have hg : (k1 == "") = (k2 == "") := by
    by_cases h1 : k1 = "" <;> by_cases h2 : k2 = "" <;> simp_all
  simp only [runScript, pipelineGuard, hg]
  by_cases hc : f.isSome = true ∧ ¬k2 = "" <;> simp [hc]

/-- Witness for C4 with two distinct non-empty keys. -/
theorem credential_noninterference_witness :
    (runScript okServices ⟨some [0], "sk-first", "q"⟩).docFileWritten
        = (runScript okServices ⟨some [0], "sk-second", "q"⟩).docFileWritten ∧
    (runScript okServices ⟨some [0], "sk-first", "q"⟩).persistDir
        = (runScript okServices ⟨some [0], "sk-second", "q"⟩).persistDir ∧
    (runScript okServices ⟨some [0], "sk-first", "q"⟩).retrieverK
        = (runScript okServices ⟨some [0], "sk-second", "q"⟩).retrieverK ∧
    (runScript okServices ⟨some [0], "sk-first", "q"⟩).llmModel
        = (runScript okServices ⟨some [0], "sk-second", "q"⟩).llmModel ∧
    (runScript okServices ⟨some [0], "sk-first", "q"⟩).llmTemperature
        = (runScript okServices ⟨some [0], "sk-second", "q"⟩).llmTemperature ∧
    (runScript okServices ⟨some [0], "sk-first", "q"⟩).outcome
        = (runScript okServices ⟨some [0], "sk-second", "q"⟩).outcome :=
  credential_noninterference okServices (some [0]) "q" "sk-first" "sk-second" (by simp)

/-- C8 (code evaluation at the failing input): replacing the uploaded
document in a later run reuses the identical fixed document path and the
identical fixed persist directory `./chroma_db` — the persisted index
location is rebuilt in place; no fresh location or reference swap
exists in the script. -/
theorem replacement_reuses_fixed_paths :
    (runScript okServices ⟨some [1], "sk-key", ""⟩).docFileWritten
        = some ("uploaded_doc.docx", [1]) ∧
    (runScript okServices ⟨some [2], "sk-key", ""⟩).docFileWritten
        = some ("uploaded_doc.docx", [2]) ∧
    (runScript okServices ⟨some [1], "sk-key", ""⟩).persistDir = some "./chroma_db" ∧
    (runScript okServices ⟨some [2], "sk-key", ""⟩).persistDir = some "./chroma_db" :=
  ⟨rfl, rfl, rfl, rfl⟩

/-- C9: whenever the script constructs the LLM (the pipeline guard
held), it is `gpt-4` at temperature 0. -/
theorem llm_temperature_zero (svc : Services) (inp : ScriptInput)
    (h : (runScript svc inp).llmModel ≠ none) :
    (runScript svc inp).llmModel = some "gpt-4" ∧
    (runScript svc inp).llmTemperature = some 0 := by
  by_cases hg : pipelineGuard inp
  · simp [runScript, hg]
  · exact absurd (by simp [runScript, hg]) h

/-- Witness for C9 at a run in which the pipeline guard holds. -/
theorem llm_temperature_zero_witness :
    (runScript okServices ⟨some [0], "sk-key", ""⟩).llmModel = some "gpt-4" ∧
    (runScript okServices ⟨some [0], "sk-key", ""⟩).llmTemperature = some 0 :=
  llm_temperature_zero okServices ⟨some [0], "sk-key", ""⟩ (by decide)

/-- C10 counterexample: with an API key supplied but no uploaded file,
the script still shows only the informational prompt, yet it has already
mutated process state — the key was written into `os.environ` (lines
17-18 run before the guard of line 22) — refuting the reading that no
state is created when either input is missing. -/
theorem guard_env_state_counterexample :
    (runScript okServices ⟨none, "sk-secret", ""⟩).outcome = RunOutcome.info ∧
    (runScript okServices ⟨none, "sk-secret", ""⟩).envKeySet = some "sk-secret" :=
  ⟨rfl, rfl⟩

/-- C10 (amended): the pipeline runs — document written, index built,
questions accepted — exactly when a file is uploaded and the key is
non-empty; when either is missing only the informational prompt is
shown and no document or index state is created, but a supplied
non-empty key is still written into the process environment. -/
theorem pipeline_guard_behavior (svc : Services) (inp : ScriptInput) :
    ((runScript svc inp).docFileWritten ≠ none ↔ pipelineGuard inp = true) ∧
    ((runScript svc inp).persistDir ≠ none ↔ pipelineGuard inp = true) ∧
    (pipelineGuard inp = true → inp.userQuestion ≠ "" →
      (runScript svc inp).outcome ≠ RunOutcome.info) ∧
    (pipelineGuard inp = false →
      (runScript svc inp).outcome = RunOutcome.info ∧
      (runScript svc inp).docFileWritten = none ∧
      (runScript svc inp).persistDir = none ∧
      (runScript svc inp).envKeySet
        = (if inp.apiKey == "" then none else some inp.apiKey)) := by
  by_cases hg : pipelineGuard inp
  · refine ⟨by simp [runScript, hg], by simp [runScript, hg], fun _ hq => ?_, fun h => ?_⟩
    · simp only [runScript, hg, if_true]
      have hq2 : (inp.userQuestion == "") = false := by simpa using hq
      rcases hr : svc.qaRun inp.userQuestion with e | a <;> simp [hq2, hr]
    · simp [hg] at h
  · have hg2 : pipelineGuard inp = false := by simpa using hg
    refine ⟨by simp [runScript, hg2], by simp [runScript, hg2], fun h => ?_, fun _ => ?_⟩
    · simp [hg2] at h
    · simp [runScript, hg2]

/-- Witness for C10: the guard equivalence at a run with both inputs
present, and the informational branch at a run with nothing supplied. -/
theorem pipeline_guard_behavior_witness :
    ((runScript okServices ⟨some [0], "sk-key", "q"⟩).docFileWritten ≠ none ↔
      pipelineGuard ⟨some [0], "sk-key", "q"⟩ = true) ∧
    ((runScript okServices ⟨none, "", ""⟩).outcome = RunOutcome.info ∧
      (runScript okServices ⟨none, "", ""⟩).docFileWritten = none ∧
      (runScript okServices ⟨none, "", ""⟩).persistDir = none ∧
      (runScript okServices ⟨none, "", ""⟩).envKeySet
        = (if ("" : String) == "" then none else some "")) :=
  ⟨(pipeline_guard_behavior okServices ⟨some [0], "sk-key", "q"⟩).1,
    (pipeline_guard_behavior okServices ⟨none, "", ""⟩).2.2.2 rfl⟩

end LangchainDemo
